import Mathlib

/-!
Shallow embedding of the constrained retrieval pipeline of
`src/main.py` (class `NeighborhoodAgent`): `filter_by_constraints`,
`search_with_constraints` and `_dataframe_to_recommendations`
(`src/main_v4.py` contains the same logic restricted to fewer fields).
Numeric cells are modelled as rationals, the dynamically typed values of
the `preferences` dict by `PVal`, and Python exceptions by
`Except String`.  The external vector index is an input (`QueryReply`).
-/

/-- A dynamically typed preference value, as found in the `preferences`
dict of `main.py` (a JSON object produced by the language model): null,
a number, a boolean, or a string. -/
inductive PVal where
  | null
  | num (q : ℚ)
  | bool (b : Bool)
  | str (s : String)
deriving DecidableEq

/-- Python truthiness of a preference value, the guard used by
`if preferences.get(k):` in `filter_by_constraints`. -/
def PVal.truthy : PVal → Bool
  | .null => false
  | .num q => q != 0
  | .bool b => b
  | .str s => s != ""

/-- The guard `preferences.get(k) is not None` used for the earthquake
threshold fields of `filter_by_constraints`. -/
def PVal.notNull : PVal → Bool
  | .null => false
  | _ => true

/-- Numeric reading of a preference value as used by pandas comparisons
and arithmetic on a numeric column: numbers stand for themselves, Python
booleans behave as 0/1, and a comparison or multiplication against a
string (or None) raises `TypeError`. -/
def pvalAsNum : PVal → Except String ℚ
  | .num q => .ok q
  | .bool b => .ok (if b then 1 else 0)
  | .str _ => .error "TypeError"
  | .null => .error "TypeError"

/-- Total variant of `pvalAsNum` (default 0), used only in specification
predicates; it agrees with `pvalAsNum` whenever the latter succeeds. -/
def pvalAsNumD : PVal → ℚ
  | .num q => q
  | .bool b => if b then 1 else 0
  | _ => 0

/-- Rendering of a preference value inside the human-readable trace
strings (the f-strings of `filter_by_constraints`). -/
def showPVal : PVal → String
  | .null => "None"
  | .num q => toString q
  | .bool true => "True"
  | .bool false => "False"
  | .str s => s

/-- One catalog row (`self.df` in `main.py`), restricted to the columns
the pipeline reads.  All numeric cells are modelled as rationals. -/
structure Row where
  mahalle : String
  ilce : String
  avg_rent_per_sqm : ℚ
  park : ℚ
  school : ℚ
  restaurant : ℚ
  cafe : ℚ
  green_index : ℚ
  nufus : ℚ
  total_stations : ℚ
  can_kaybi : ℚ
  cok_agir_hasarli : ℚ
  agir_hasarli : ℚ
  society_welfare_index : ℚ
deriving DecidableEq, Repr

/-- The preference fields read by `filter_by_constraints`,
`search_with_constraints` and `_dataframe_to_recommendations` in
`main.py`.  Every field holds an arbitrary dynamically typed value. -/
structure Prefs where
  monthly_budget : PVal
  apartment_size_sqm : PVal
  min_parks : PVal
  min_schools : PVal
  min_restaurants : PVal
  min_cafes : PVal
  min_green_index : PVal
  max_population : PVal
  min_total_stations : PVal
  earthquake_safe : PVal
  max_casualties : PVal
  max_severely_damaged : PVal
  max_heavily_damaged : PVal
  preferences_text : PVal
deriving DecidableEq

/-- The effective apartment-size value:
`apartment_size = preferences.get('apartment_size_sqm') or 80`
(Python `or` keeps the raw value when it is truthy). -/
def sizeVal (p : Prefs) : PVal :=
  if p.apartment_size_sqm.truthy then p.apartment_size_sqm else .num 80

/-- The budget filter of `filter_by_constraints` (main.py lines 556-562):
`estimated_rent = Avg_Rent_Per_SqM * apartment_size` (raises on a string
size), then the comparison against `monthly_budget` (raises on a string
budget), then the trace append. -/
def budgetStep (p : Prefs) (st : List Row × List String) :
    Except String (List Row × List String) :=
  if p.monthly_budget.truthy then
    match pvalAsNum (sizeVal p) with
    | .error e => .error e
    | .ok s =>
      match pvalAsNum p.monthly_budget with
      | .error e => .error e
      | .ok b =>
        .ok (st.1.filter (fun r => decide (r.avg_rent_per_sqm * s ≤ b)),
             st.2 ++ ["Budget: <= " ++ showPVal p.monthly_budget ++ " TRY/month"])
  else .ok st

/-- A minimum-threshold filter guarded by truthiness: keep the rows whose
column is at least the threshold and append one trace entry
(main.py lines 565-594). -/
def minStep (v : PVal) (col : Row → ℚ) (lbl : String)
    (st : List Row × List String) : Except String (List Row × List String) :=
  if v.truthy then
    match pvalAsNum v with
    | .error e => .error e
    | .ok q =>
      .ok (st.1.filter (fun r => decide (q ≤ col r)), st.2 ++ [lbl ++ showPVal v])
  else .ok st

/-- A maximum-threshold filter guarded by truthiness (the
`max_population` filter, main.py lines 587-589). -/
def maxStepTruthy (v : PVal) (col : Row → ℚ) (lbl : String)
    (st : List Row × List String) : Except String (List Row × List String) :=
  if v.truthy then
    match pvalAsNum v with
    | .error e => .error e
    | .ok q =>
      .ok (st.1.filter (fun r => decide (col r ≤ q)), st.2 ++ [lbl ++ showPVal v])
  else .ok st

/-- A maximum-threshold filter guarded by `is not None` (the earthquake
threshold filters, main.py lines 599-609). -/
def maxStepNotNull (v : PVal) (col : Row → ℚ) (lbl : String)
    (st : List Row × List String) : Except String (List Row × List String) :=
  if v.notNull then
    match pvalAsNum v with
    | .error e => .error e
    | .ok q =>
      .ok (st.1.filter (fun r => decide (col r ≤ q)), st.2 ++ [lbl ++ showPVal v])
  else .ok st

/-- The casualties filter with its nested guard from main.py lines
597-601: `if earthquake_safe or max_casualties is not None:` and inside
it `if max_casualties is not None:`. -/
def casualtiesStep (p : Prefs) (st : List Row × List String) :
    Except String (List Row × List String) :=
  if p.earthquake_safe.truthy || p.max_casualties.notNull then
    maxStepNotNull p.max_casualties (fun r => r.can_kaybi)
      "Max Casualties (earthquake sim): <= " st
  else .ok st

/-- `NeighborhoodAgent.filter_by_constraints` (main.py lines 550-611):
the working set starts as the whole catalog; each recognized field, in
source order, narrows it and appends one trace entry. -/
def filter_by_constraints (df : List Row) (p : Prefs) :
    Except String (List Row × List String) := do
  let st1 ← budgetStep p (df, [])
  let st2 ← minStep p.min_parks (fun r => r.park) "Parks: >= " st1
  let st3 ← minStep p.min_schools (fun r => r.school) "Schools: >= " st2
  let st4 ← minStep p.min_restaurants (fun r => r.restaurant) "Restaurants: >= " st3
  let st5 ← minStep p.min_cafes (fun r => r.cafe) "Cafes: >= " st4
  let st6 ← minStep p.min_green_index (fun r => r.green_index) "Green Index: >= " st5
  let st7 ← maxStepTruthy p.max_population (fun r => r.nufus) "Population: <= " st6
  let st8 ← minStep p.min_total_stations (fun r => r.total_stations)
    "Total Stations (bus+train+transit): >= " st7
  let st9 ← casualtiesStep p st8
  let st10 ← maxStepNotNull p.max_severely_damaged (fun r => r.cok_agir_hasarli)
    "Max Severely Damaged Buildings: <= " st9
  let st11 ← maxStepNotNull p.max_heavily_damaged (fun r => r.agir_hasarli)
    "Max Heavily Damaged Buildings: <= " st10
  return st11

/-- Specification predicate of one truthiness-guarded minimum filter:
trivially true when the guard is off. -/
def minPred (v : PVal) (col : Row → ℚ) (r : Row) : Bool :=
  !v.truthy || decide (pvalAsNumD v ≤ col r)

/-- Specification predicate of the truthiness-guarded maximum filter. -/
def maxPredT (v : PVal) (col : Row → ℚ) (r : Row) : Bool :=
  !v.truthy || decide (col r ≤ pvalAsNumD v)

/-- Specification predicate of an `is not None`-guarded maximum filter. -/
def maxPredN (v : PVal) (col : Row → ℚ) (r : Row) : Bool :=
  !v.notNull || decide (col r ≤ pvalAsNumD v)

/-- Specification predicate of the budget filter. -/
def budgetPred (p : Prefs) (r : Row) : Bool :=
  !p.monthly_budget.truthy ||
    decide (r.avg_rent_per_sqm * pvalAsNumD (sizeVal p) ≤
      pvalAsNumD p.monthly_budget)

/-- The per-field predicates of `filter_by_constraints`, in source
order.  A field whose guard is off contributes a trivially true
predicate. -/
def predList (p : Prefs) : List (Row → Bool) :=
  [budgetPred p,
   minPred p.min_parks (fun r => r.park),
   minPred p.min_schools (fun r => r.school),
   minPred p.min_restaurants (fun r => r.restaurant),
   minPred p.min_cafes (fun r => r.cafe),
   minPred p.min_green_index (fun r => r.green_index),
   maxPredT p.max_population (fun r => r.nufus),
   minPred p.min_total_stations (fun r => r.total_stations),
   maxPredN p.max_casualties (fun r => r.can_kaybi),
   maxPredN p.max_severely_damaged (fun r => r.cok_agir_hasarli),
   maxPredN p.max_heavily_damaged (fun r => r.agir_hasarli)]

/-- The conjunction of all active predicates of a preference record. -/
def activePred (p : Prefs) (r : Row) : Bool :=
  (predList p).all (fun q => q r)

/-- The trace `filters_applied` as a function of the preferences alone:
one entry per applied predicate, in source order, independent of the
catalog contents. -/
def traceSpec (p : Prefs) : List String :=
  (if p.monthly_budget.truthy then
    ["Budget: <= " ++ showPVal p.monthly_budget ++ " TRY/month"] else []) ++
  (if p.min_parks.truthy then ["Parks: >= " ++ showPVal p.min_parks] else []) ++
  (if p.min_schools.truthy then
    ["Schools: >= " ++ showPVal p.min_schools] else []) ++
  (if p.min_restaurants.truthy then
    ["Restaurants: >= " ++ showPVal p.min_restaurants] else []) ++
  (if p.min_cafes.truthy then ["Cafes: >= " ++ showPVal p.min_cafes] else []) ++
  (if p.min_green_index.truthy then
    ["Green Index: >= " ++ showPVal p.min_green_index] else []) ++
  (if p.max_population.truthy then
    ["Population: <= " ++ showPVal p.max_population] else []) ++
  (if p.min_total_stations.truthy then
    ["Total Stations (bus+train+transit): >= " ++
      showPVal p.min_total_stations] else []) ++
  (if p.max_casualties.notNull then
    ["Max Casualties (earthquake sim): <= " ++
      showPVal p.max_casualties] else []) ++
  (if p.max_severely_damaged.notNull then
    ["Max Severely Damaged Buildings: <= " ++
      showPVal p.max_severely_damaged] else []) ++
  (if p.max_heavily_damaged.notNull then
    ["Max Heavily Damaged Buildings: <= " ++
      showPVal p.max_heavily_damaged] else [])

/-- A value a numeric pandas comparison accepts without raising: null
(the guard skips it), a number, or a Python boolean (0/1). -/
def PVal.numLike : PVal → Bool
  | .str _ => false
  | _ => true

/-- A well-typed preference record: every threshold field holds null or
a number (or a boolean).  `earthquake_safe` and `preferences_text` are
never compared numerically, so they are unconstrained. -/
def Prefs.wellTyped (p : Prefs) : Bool :=
  p.monthly_budget.numLike && p.apartment_size_sqm.numLike &&
  p.min_parks.numLike && p.min_schools.numLike &&
  p.min_restaurants.numLike && p.min_cafes.numLike &&
  p.min_green_index.numLike && p.max_population.numLike &&
  p.min_total_stations.numLike && p.max_casualties.numLike &&
  p.max_severely_damaged.numLike && p.max_heavily_damaged.numLike

/-- Whether an `Except` computation finished without raising. -/
def exceptIsOk {α : Type} : Except String α → Bool
  | .ok _ => true
  | .error _ => false

/-- Sequential filtering of the catalog by a list of per-record
predicates, one `List.filter` pass per predicate. -/
def applyPreds (df : List Row) (ps : List (Row → Bool)) : List Row :=
  ps.foldl (fun acc q => acc.filter q) df

/-- Metadata stored per document in the vector index (the index is built
from catalog rows); `avg_rent_per_sqm` is read back with
`metadata.get('avg_rent_per_sqm', 0)`, hence optional here. -/
structure Meta where
  mahalle : String
  ilce : String
  avg_rent_per_sqm : Option ℚ
deriving DecidableEq, Repr

/-- One item of the vector-index reply: document id, metadata and
embedding distance, in the index's rank order. -/
structure SearchItem where
  docId : String
  meta : Meta
  distance : ℚ
deriving DecidableEq, Repr

/-- The outcome of the `self.collection.query(...)` call: a ranked item
list, or any raised exception (timeout, malformed response, ...). -/
inductive QueryReply where
  | ok (items : List SearchItem)
  | err
deriving DecidableEq, Repr

/-- One recommendation dict as assembled by `search_with_constraints` or
`_dataframe_to_recommendations`: the financial fields are present only
when a budget was given. -/
structure Rec where
  mahalle : String
  ilce : String
  similarity : ℚ
  monthly_rent : Option ℚ
  budget_remaining : Option ℚ
deriving DecidableEq, Repr

/-- Sequential mapping that propagates the first raised exception, the
way a Python for-loop building a list does. -/
def mapE {α β : Type} (f : α → Except String β) : List α → Except String (List β)
  | [] => .ok []
  | a :: as =>
    match f a with
    | .error e => .error e
    | .ok b =>
      match mapE f as with
      | .error e => .error e
      | .ok bs => .ok (b :: bs)

/-- Build one recommendation from a kept index item (main.py lines
673-693): similarity is `1 - distance`; when `monthly_budget` is truthy,
rent is `metadata.get('avg_rent_per_sqm', 0) * apartment_size` and
`budget_remaining = monthly_budget - monthly_rent`. -/
def itemToRec (p : Prefs) (it : SearchItem) : Except String Rec :=
  if p.monthly_budget.truthy then
    match pvalAsNum (sizeVal p) with
    | .error e => .error e
    | .ok s =>
      match pvalAsNum p.monthly_budget with
      | .error e => .error e
      | .ok b =>
        .ok { mahalle := it.meta.mahalle, ilce := it.meta.ilce,
              similarity := 1 - it.distance,
              monthly_rent := some ((it.meta.avg_rent_per_sqm.getD 0) * s),
              budget_remaining := some (b - (it.meta.avg_rent_per_sqm.getD 0) * s) }
  else
    .ok { mahalle := it.meta.mahalle, ilce := it.meta.ilce,
          similarity := 1 - it.distance, monthly_rent := none,
          budget_remaining := none }

/-- `NeighborhoodAgent._dataframe_to_recommendations` applied to one row
(main.py lines 704-739): the similarity is the constant `0.5`; the
financial fields are computed from the row's own rate when
`monthly_budget` is truthy. -/
def rowToRec (p : Prefs) (r : Row) : Except String Rec :=
  if p.monthly_budget.truthy then
    match pvalAsNum (sizeVal p) with
    | .error e => .error e
    | .ok s =>
      match pvalAsNum p.monthly_budget with
      | .error e => .error e
      | .ok b =>
        .ok { mahalle := r.mahalle, ilce := r.ilce, similarity := 1/2,
              monthly_rent := some (r.avg_rent_per_sqm * s),
              budget_remaining := some (b - r.avg_rent_per_sqm * s) }
  else
    .ok { mahalle := r.mahalle, ilce := r.ilce, similarity := 1/2,
          monthly_rent := none, budget_remaining := none }

/-- `NeighborhoodAgent._dataframe_to_recommendations` (main.py lines
704-739): one recommendation per row, in row order. -/
def dfToRecs (rows : List Row) (p : Prefs) : Except String (List Rec) :=
  mapE (rowToRec p) rows

/-- The welfare ordering behind `nlargest`: `a` may come before `b`
exactly when its welfare index is at least `b`'s. -/
def wfGE (a b : Row) : Prop :=
  b.society_welfare_index ≤ a.society_welfare_index

instance : DecidableRel wfGE :=
  fun _ _ => inferInstanceAs (Decidable (_ ≤ _))

/-- `filtered_df.nlargest(n, 'Society_Welfare_Index')` (pandas semantics
with the default `keep='first'`): the first `n` rows of the stable
descending sort by welfare index, so ties keep catalog order. -/
def nlargestWelfare (n : Nat) (df : List Row) : List Row :=
  (List.insertionSort wfGE df).take n

/-- The post-filter loop of `search_with_constraints` (main.py lines
656-667): walk the reply in rank order, keep an item when its mahalle
occurs among the candidate mahalles AND its ilce among the candidate
ilces (two independent membership tests on the two column lists), and
break once `n_results` items are kept (the length test runs after the
append). -/
def postFilter (mahalles ilces : List String) (n : Nat)
    (acc : List SearchItem) : List SearchItem → List SearchItem
  | [] => acc
  | it :: rest =>
    if mahalles.contains it.meta.mahalle && ilces.contains it.meta.ilce then
      if n ≤ acc.length + 1 then acc ++ [it]
      else postFilter mahalles ilces n (acc ++ [it]) rest
    else postFilter mahalles ilces n acc rest

/-- `NeighborhoodAgent.search_with_constraints` (main.py lines 613-702),
with the external vector-index call abstracted into the `reply`
argument.  The `try` block spans the query and the result-building loop,
so any raise inside it lands in the fallback branch
(`nlargest` by welfare index, then `_dataframe_to_recommendations`);
an empty candidate set returns `[]` before the query. -/
def search_with_constraints (df : List Row) (p : Prefs) (nResults : Nat)
    (reply : QueryReply) : Except String (List Rec) :=
  match filter_by_constraints df p with
  | .error e => .error e
  | .ok st =>
    if st.1.length = 0 then .ok []
    else
      match reply with
      | .err => dfToRecs (nlargestWelfare nResults st.1) p
      | .ok items =>
        let kept := postFilter (st.1.map (fun r => r.mahalle))
          (st.1.map (fun r => r.ilce)) nResults [] items
        match mapE (itemToRec p) kept with
        | .ok recs => .ok recs
        | .error _ => dfToRecs (nlargestWelfare nResults st.1) p

def rowA : Row :=
  { mahalle := "Moda", ilce := "Kadikoy", avg_rent_per_sqm := 300, park := 2,
    school := 0, restaurant := 0, cafe := 0, green_index := 0, nufus := 0,
    total_stations := 0, can_kaybi := 0, cok_agir_hasarli := 0,
    agir_hasarli := 0, society_welfare_index := mkRat 9 10 }

def nullPrefs : Prefs :=
  { monthly_budget := .null, apartment_size_sqm := .null, min_parks := .null,
    min_schools := .null, min_restaurants := .null, min_cafes := .null,
    min_green_index := .null, max_population := .null,
    min_total_stations := .null, earthquake_safe := .null,
    max_casualties := .null, max_severely_damaged := .null,
    max_heavily_damaged := .null, preferences_text := .null }

def rowB : Row :=
  { rowA with
    mahalle := "Levent", ilce := "Besiktas", park := 3,
    society_welfare_index := mkRat 1 2 }

def rowC : Row :=
  { rowA with
    mahalle := "Moda", ilce := "Besiktas", park := 0,
    avg_rent_per_sqm := 600, society_welfare_index := mkRat 7 10 }

/-- A preference record asking for at least one park. -/
def parksPrefs : Prefs := { nullPrefs with min_parks := .num 1 }

/-- A preference record asking for at least five parks (no catalog row
below satisfies it). -/
def bigParksPrefs : Prefs := { nullPrefs with min_parks := .num 5 }

/-- A preference record with a budget of 32000 for a 100-unit flat. -/
def budgetPrefs : Prefs :=
  { nullPrefs with
    monthly_budget := .num 32000,
    apartment_size_sqm := .num 100 }

/-- A vector-index reply item whose identifier is `rowC`
(mahalle "Moda" in ilce "Besiktas"). -/
def itemC : SearchItem :=
  { docId := "Besiktas_Moda",
    meta := { mahalle := "Moda", ilce := "Besiktas",
              avg_rent_per_sqm := some 600 },
    distance := 1/10 }

/-- The recommendation the fallback path produces for `rowA` with no
budget set. -/
def recA : Rec :=
  { mahalle := "Moda", ilce := "Kadikoy", similarity := 1/2,
    monthly_rent := none, budget_remaining := none }

/-- The recommendation the semantic path produces for `itemC` with no
budget set (similarity 1 - 0.1 = 0.9). -/
def recCsem : Rec :=
  { mahalle := "Moda", ilce := "Besiktas", similarity := 1 - 1/10,
    monthly_rent := none, budget_remaining := none }

theorem pvalAsNumD_eq {v : PVal} {q : ℚ} (h : pvalAsNum v = .ok q) :
    pvalAsNumD v = q := by
  cases v with
  | num q' => exact Except.ok.inj h
  | bool b => exact Except.ok.inj h
  | str s => exact Except.noConfusion h
  | null => exact Except.noConfusion h

theorem pvalAsNum_ok_of_truthy {v : PVal} (ht : v.truthy = true)
    (h : v.numLike = true) : pvalAsNum v = .ok (pvalAsNumD v) := by
  cases v with
  | num q' => rfl
  | bool b => rfl
  | str s => exact absurd h (by simp [PVal.numLike])
  | null => exact absurd ht (by simp [PVal.truthy])

theorem pvalAsNum_ok_of_notNull {v : PVal} (ht : v.notNull = true)
    (h : v.numLike = true) : pvalAsNum v = .ok (pvalAsNumD v) := by
  cases v with
  | num q' => rfl
  | bool b => rfl
  | str s => exact absurd h (by simp [PVal.numLike])
  | null => exact absurd ht (by simp [PVal.notNull])

theorem except_bind_ok {α β : Type} {x : Except String α}
    {f : α → Except String β} {b : β} (h : x >>= f = .ok b) :
    ∃ a, x = .ok a ∧ f a = .ok b := by
  cases x with
  | error e => exact absurd h (by simp [Bind.bind, Except.bind])
  | ok a => exact ⟨a, rfl, by simpa [Bind.bind, Except.bind] using h⟩

theorem minStep_ok {v : PVal} {col : Row → ℚ} {lbl : String}
    {st st' : List Row × List String} (h : minStep v col lbl st = .ok st') :
    st'.1 = st.1.filter (minPred v col) ∧
      st'.2 = st.2 ++ (if v.truthy then [lbl ++ showPVal v] else []) := by
  unfold minStep at h
  by_cases hv : v.truthy
  · rw [if_pos hv] at h
    cases hq : pvalAsNum v with
    | error e => rw [hq] at h; cases h
    | ok q =>
      rw [hq] at h
      injection h with h'
      subst h'
      refine ⟨List.filter_congr fun r _ => ?_, by simp [hv]⟩
      simp [minPred, hv, pvalAsNumD_eq hq]
  · rw [if_neg hv] at h
    injection h with h'
    subst h'
    refine ⟨Eq.symm ?_, by simp [hv]⟩
    refine (List.filter_congr fun r _ => ?_).trans (List.filter_true _)
    simp [minPred, hv]

theorem maxStepTruthy_ok {v : PVal} {col : Row → ℚ} {lbl : String}
    {st st' : List Row × List String}
    (h : maxStepTruthy v col lbl st = .ok st') :
    st'.1 = st.1.filter (maxPredT v col) ∧
      st'.2 = st.2 ++ (if v.truthy then [lbl ++ showPVal v] else []) := by
  unfold maxStepTruthy at h
  by_cases hv : v.truthy
  · rw [if_pos hv] at h
    cases hq : pvalAsNum v with
    | error e => rw [hq] at h; cases h
    | ok q =>
      rw [hq] at h
      injection h with h'
      subst h'
      refine ⟨List.filter_congr fun r _ => ?_, by simp [hv]⟩
      simp [maxPredT, hv, pvalAsNumD_eq hq]
  · rw [if_neg hv] at h
    injection h with h'
    subst h'
    refine ⟨Eq.symm ?_, by simp [hv]⟩
    refine (List.filter_congr fun r _ => ?_).trans (List.filter_true _)
    simp [maxPredT, hv]

theorem maxStepNotNull_ok {v : PVal} {col : Row → ℚ} {lbl : String}
    {st st' : List Row × List String}
    (h : maxStepNotNull v col lbl st = .ok st') :
    st'.1 = st.1.filter (maxPredN v col) ∧
      st'.2 = st.2 ++ (if v.notNull then [lbl ++ showPVal v] else []) := by
  unfold maxStepNotNull at h
  by_cases hv : v.notNull
  · rw [if_pos hv] at h
    cases hq : pvalAsNum v with
    | error e => rw [hq] at h; cases h
    | ok q =>
      rw [hq] at h
      injection h with h'
      subst h'
      refine ⟨List.filter_congr fun r _ => ?_, by simp [hv]⟩
      simp [maxPredN, hv, pvalAsNumD_eq hq]
  · rw [if_neg hv] at h
    injection h with h'
    subst h'
    refine ⟨Eq.symm ?_, by simp [hv]⟩
    refine (List.filter_congr fun r _ => ?_).trans (List.filter_true _)
    simp [maxPredN, hv]

theorem budgetStep_ok {p : Prefs} {st st' : List Row × List String}
    (h : budgetStep p st = .ok st') :
    st'.1 = st.1.filter (budgetPred p) ∧
      st'.2 = st.2 ++ (if p.monthly_budget.truthy then
        ["Budget: <= " ++ showPVal p.monthly_budget ++ " TRY/month"]
      else []) := by
  unfold budgetStep at h
  by_cases hv : p.monthly_budget.truthy
  · rw [if_pos hv] at h
    cases hs : pvalAsNum (sizeVal p) with
    | error e => rw [hs] at h; cases h
    | ok s =>
      rw [hs] at h
      cases hb : pvalAsNum p.monthly_budget with
      | error e => rw [hb] at h; cases h
      | ok b =>
        rw [hb] at h
        injection h with h'
        subst h'
        refine ⟨List.filter_congr fun r _ => ?_, by simp [hv]⟩
        simp [budgetPred, hv, pvalAsNumD_eq hs, pvalAsNumD_eq hb]
  · rw [if_neg hv] at h
    injection h with h'
    subst h'
    refine ⟨Eq.symm ?_, by simp [hv]⟩
    refine (List.filter_congr fun r _ => ?_).trans (List.filter_true _)
    simp [budgetPred, hv]

theorem casualtiesStep_ok {p : Prefs} {st st' : List Row × List String}
    (h : casualtiesStep p st = .ok st') :
    st'.1 = st.1.filter (maxPredN p.max_casualties (fun r => r.can_kaybi)) ∧
      st'.2 = st.2 ++ (if p.max_casualties.notNull then
        ["Max Casualties (earthquake sim): <= " ++
          showPVal p.max_casualties]
      else []) := by
  unfold casualtiesStep at h
  by_cases hg : p.earthquake_safe.truthy || p.max_casualties.notNull
  · rw [if_pos hg] at h
    exact maxStepNotNull_ok h
  · rw [if_neg hg] at h
    injection h with h'
    subst h'
    have hc : p.max_casualties.notNull = false := by
      rcases Bool.or_eq_false_iff.mp (Bool.eq_false_iff.mpr hg) with ⟨_, h2⟩
      exact h2
    refine ⟨Eq.symm ?_, by simp [hc]⟩
    refine (List.filter_congr fun r _ => ?_).trans (List.filter_true _)
    simp [maxPredN, hc]

theorem filter_ok_spec {df : List Row} {p : Prefs}
    {rows : List Row} {trace : List String}
    (h : filter_by_constraints df p = .ok (rows, trace)) :
    rows = df.filter (activePred p) ∧ trace = traceSpec p := by
  unfold filter_by_constraints at h
  obtain ⟨st1, h1, h⟩ := except_bind_ok h
  obtain ⟨st2, h2, h⟩ := except_bind_ok h
  obtain ⟨st3, h3, h⟩ := except_bind_ok h
  obtain ⟨st4, h4, h⟩ := except_bind_ok h
  obtain ⟨st5, h5, h⟩ := except_bind_ok h
  obtain ⟨st6, h6, h⟩ := except_bind_ok h
  obtain ⟨st7, h7, h⟩ := except_bind_ok h
  obtain ⟨st8, h8, h⟩ := except_bind_ok h
  obtain ⟨st9, h9, h⟩ := except_bind_ok h
  obtain ⟨st10, h10, h⟩ := except_bind_ok h
  obtain ⟨st11, h11, h⟩ := except_bind_ok h
  have hfin : st11 = (rows, trace) := by
    simpa [pure, Except.pure] using h
  subst hfin
  obtain ⟨e1, t1⟩ := budgetStep_ok h1
  obtain ⟨e2, t2⟩ := minStep_ok h2
  obtain ⟨e3, t3⟩ := minStep_ok h3
  obtain ⟨e4, t4⟩ := minStep_ok h4
  obtain ⟨e5, t5⟩ := minStep_ok h5
  obtain ⟨e6, t6⟩ := minStep_ok h6
  obtain ⟨e7, t7⟩ := maxStepTruthy_ok h7
  obtain ⟨e8, t8⟩ := minStep_ok h8
  obtain ⟨e9, t9⟩ := casualtiesStep_ok h9
  obtain ⟨e10, t10⟩ := maxStepNotNull_ok h10
  obtain ⟨e11, t11⟩ := maxStepNotNull_ok h11
  constructor
  · show (rows, trace).1 = _
    rw [e11, e10, e9, e8, e7, e6, e5, e4, e3, e2, e1]
    simp only [List.filter_filter]
    refine List.filter_congr fun r _ => ?_
    simp only [activePred, predList, List.all_cons, List.all_nil]
    ac_rfl
  · show (rows, trace).2 = _
    rw [t11, t10, t9, t8, t7, t6, t5, t4, t3, t2, t1]
    simp only [traceSpec, List.append_assoc, List.nil_append]

theorem except_ok_bind {α β : Type} (a : α) (f : α → Except String β) :
    (Except.ok a : Except String α) >>= f = f a := rfl

theorem sizeVal_ok {p : Prefs} (h : p.apartment_size_sqm.numLike = true) :
    ∃ s, pvalAsNum (sizeVal p) = .ok s := by
  unfold sizeVal
  by_cases ht : p.apartment_size_sqm.truthy
  · rw [if_pos ht]
    exact ⟨_, pvalAsNum_ok_of_truthy ht h⟩
  · rw [if_neg ht]
    exact ⟨80, rfl⟩

theorem budgetStep_wt_ok {p : Prefs} (st : List Row × List String)
    (hb : p.monthly_budget.numLike = true)
    (ha : p.apartment_size_sqm.numLike = true) :
    ∃ st', budgetStep p st = .ok st' := by
  unfold budgetStep
  by_cases ht : p.monthly_budget.truthy
  · obtain ⟨s, hs⟩ := sizeVal_ok ha
    rw [if_pos ht, hs, pvalAsNum_ok_of_truthy ht hb]
    exact ⟨_, rfl⟩
  · rw [if_neg ht]
    exact ⟨st, rfl⟩

theorem minStep_wt_ok {v : PVal} (col : Row → ℚ) (lbl : String)
    (st : List Row × List String) (h : v.numLike = true) :
    ∃ st', minStep v col lbl st = .ok st' := by
  unfold minStep
  by_cases ht : v.truthy
  · rw [if_pos ht, pvalAsNum_ok_of_truthy ht h]
    exact ⟨_, rfl⟩
  · rw [if_neg ht]
    exact ⟨st, rfl⟩

theorem maxStepTruthy_wt_ok {v : PVal} (col : Row → ℚ) (lbl : String)
    (st : List Row × List String) (h : v.numLike = true) :
    ∃ st', maxStepTruthy v col lbl st = .ok st' := by
  unfold maxStepTruthy
  by_cases ht : v.truthy
  · rw [if_pos ht, pvalAsNum_ok_of_truthy ht h]
    exact ⟨_, rfl⟩
  · rw [if_neg ht]
    exact ⟨st, rfl⟩

theorem maxStepNotNull_wt_ok {v : PVal} (col : Row → ℚ) (lbl : String)
    (st : List Row × List String) (h : v.numLike = true) :
    ∃ st', maxStepNotNull v col lbl st = .ok st' := by
  unfold maxStepNotNull
  by_cases ht : v.notNull
  · rw [if_pos ht, pvalAsNum_ok_of_notNull ht h]
    exact ⟨_, rfl⟩
  · rw [if_neg ht]
    exact ⟨st, rfl⟩

theorem casualtiesStep_wt_ok {p : Prefs} (st : List Row × List String)
    (h : p.max_casualties.numLike = true) :
    ∃ st', casualtiesStep p st = .ok st' := by
  unfold casualtiesStep
  by_cases hg : p.earthquake_safe.truthy || p.max_casualties.notNull
  · rw [if_pos hg]
    exact maxStepNotNull_wt_ok _ _ st h
  · rw [if_neg hg]
    exact ⟨st, rfl⟩

theorem filter_wt_isOk {df : List Row} {p : Prefs} (h : p.wellTyped = true) :
    ∃ res, filter_by_constraints df p = .ok res := by
  simp only [Prefs.wellTyped, Bool.and_eq_true, and_assoc] at h
  obtain ⟨h1, h2, h3, h4, h5, h6, h7, h8, h9, h10, h11, h12⟩ := h
  obtain ⟨st1, e1⟩ := budgetStep_wt_ok (df, []) h1 h2
  obtain ⟨st2, e2⟩ := minStep_wt_ok (fun r => r.park) _ st1 h3
  obtain ⟨st3, e3⟩ := minStep_wt_ok (fun r => r.school) _ st2 h4
  obtain ⟨st4, e4⟩ := minStep_wt_ok (fun r => r.restaurant) _ st3 h5
  obtain ⟨st5, e5⟩ := minStep_wt_ok (fun r => r.cafe) _ st4 h6
  obtain ⟨st6, e6⟩ := minStep_wt_ok (fun r => r.green_index) _ st5 h7
  obtain ⟨st7, e7⟩ := maxStepTruthy_wt_ok (fun r => r.nufus) _ st6 h8
  obtain ⟨st8, e8⟩ := minStep_wt_ok (fun r => r.total_stations) _ st7 h9
  obtain ⟨st9, e9⟩ := casualtiesStep_wt_ok st8 h10
  obtain ⟨st10, e10⟩ := maxStepNotNull_wt_ok (fun r => r.cok_agir_hasarli) _ st9 h11
  obtain ⟨st11, e11⟩ := maxStepNotNull_wt_ok (fun r => r.agir_hasarli) _ st10 h12
  refine ⟨st11, ?_⟩
  unfold filter_by_constraints
  rw [e1, except_ok_bind, e2, except_ok_bind, e3, except_ok_bind, e4,
    except_ok_bind, e5, except_ok_bind, e6, except_ok_bind, e7,
    except_ok_bind, e8, except_ok_bind, e9, except_ok_bind, e10,
    except_ok_bind, e11, except_ok_bind]
  rfl

theorem mapE_ok_length {α β : Type} {f : α → Except String β} {l : List α}
    {bs : List β} (h : mapE f l = .ok bs) : bs.length = l.length := by
  induction l generalizing bs with
  | nil =>
    unfold mapE at h
    injection h with h'
    simp [← h']
  | cons a as ih =>
    unfold mapE at h
    cases hfa : f a with
    | error e => rw [hfa] at h; cases h
    | ok b =>
      rw [hfa] at h
      cases hrest : mapE f as with
      | error e => rw [hrest] at h; cases h
      | ok bs' =>
        rw [hrest] at h
        injection h with h'
        simp [← h', ih hrest]

theorem mapE_ok_mem {α β : Type} {f : α → Except String β} {l : List α}
    {bs : List β} (h : mapE f l = .ok bs) :
    ∀ b ∈ bs, ∃ a ∈ l, f a = .ok b := by
  induction l generalizing bs with
  | nil =>
    unfold mapE at h
    injection h with h'
    subst h'
    intro b hb
    cases hb
  | cons a as ih =>
    unfold mapE at h
    cases hfa : f a with
    | error e => rw [hfa] at h; cases h
    | ok b0 =>
      rw [hfa] at h
      cases hrest : mapE f as with
      | error e => rw [hrest] at h; cases h
      | ok bs' =>
        rw [hrest] at h
        injection h with h'
        subst h'
        intro b hb
        rcases List.mem_cons.mp hb with hb | hb
        · exact ⟨a, List.mem_cons_self a as, hb ▸ hfa⟩
        · obtain ⟨a', ha', hfa'⟩ := ih hrest b hb
          exact ⟨a', List.mem_cons_of_mem a ha', hfa'⟩

theorem mapE_ok_of_forall {α β : Type} {f : α → Except String β} {l : List α}
    (h : ∀ a ∈ l, ∃ b, f a = .ok b) : ∃ bs, mapE f l = .ok bs := by
  induction l with
  | nil => exact ⟨[], rfl⟩
  | cons a as ih =>
    obtain ⟨b, hb⟩ := h a (List.mem_cons_self a as)
    obtain ⟨bs, hbs⟩ := ih fun x hx => h x (List.mem_cons_of_mem a hx)
    refine ⟨b :: bs, ?_⟩
    unfold mapE
    rw [hb, hbs]

instance : IsTrans Row wfGE :=
  ⟨fun _ _ _ hab hbc => le_trans hbc hab⟩

instance : IsTotal Row wfGE :=
  ⟨fun a b => le_total b.society_welfare_index a.society_welfare_index⟩

theorem nlargest_sublist_sorted (n : Nat) (df : List Row) :
    (nlargestWelfare n df).Pairwise wfGE :=
  List.Pairwise.sublist (List.take_sublist n _)
    (List.sorted_insertionSort wfGE df)

theorem nlargest_length (n : Nat) (df : List Row) :
    (nlargestWelfare n df).length = min n df.length := by
  simp [nlargestWelfare, List.length_take, List.length_insertionSort]

theorem nlargest_mem {n : Nat} {df : List Row} {r : Row}
    (h : r ∈ nlargestWelfare n df) : r ∈ df :=
  (List.perm_insertionSort wfGE df).mem_iff.mp
    (List.mem_of_mem_take h)

theorem insertionSort_filter_const (df : List Row) (c : ℚ) :
    (List.insertionSort wfGE df).filter
        (fun r => r.society_welfare_index == c) =
      df.filter (fun r => r.society_welfare_index == c) := by
  set P : Row → Bool := fun r => r.society_welfare_index == c with hP
  have hmemc : ∀ x ∈ df.filter P, x.society_welfare_index = c := by
    intro x hx
    have := (List.mem_filter.mp hx).2
    simpa [hP] using this
  have hpw : (df.filter P).Pairwise wfGE := by
    refine List.pairwise_of_forall_mem_list fun a ha b hb => ?_
    unfold wfGE
    rw [hmemc a ha, hmemc b hb]
  have hsub : (df.filter P).Sublist (List.insertionSort wfGE df) :=
    List.sublist_insertionSort hpw (List.filter_sublist df)
  have hidem : (df.filter P).filter P = df.filter P := by
    rw [List.filter_filter]
    exact List.filter_congr fun r _ => by simp
  have hsub2 : (df.filter P).Sublist
      ((List.insertionSort wfGE df).filter P) := by
    rw [← hidem]
    exact hsub.filter P
  have hperm : ((List.insertionSort wfGE df).filter P).Perm (df.filter P) :=
    (List.perm_insertionSort wfGE df).filter P
  exact ((hsub2.eq_of_length hperm.length_eq.symm).symm)

theorem nlargest_filter_sublist (n : Nat) (df : List Row) (c : ℚ) :
    ((nlargestWelfare n df).filter
        (fun r => r.society_welfare_index == c)).Sublist
      (df.filter (fun r => r.society_welfare_index == c)) := by
  rw [← insertionSort_filter_const df c]
  exact ((List.take_sublist n _).filter _)

theorem nlargest_topn (n : Nat) (df : List Row) :
    ∃ rest, df.Perm (nlargestWelfare n df ++ rest) ∧
      ∀ y ∈ rest, ∀ x ∈ nlargestWelfare n df,
        y.society_welfare_index ≤ x.society_welfare_index := by
  refine ⟨(List.insertionSort wfGE df).drop n, ?_, ?_⟩
  · have : nlargestWelfare n df ++ (List.insertionSort wfGE df).drop n =
        List.insertionSort wfGE df := List.take_append_drop n _
    rw [this]
    exact (List.perm_insertionSort wfGE df).symm
  · have hs : (List.insertionSort wfGE df).Pairwise wfGE :=
      List.sorted_insertionSort wfGE df
    rw [← List.take_append_drop n (List.insertionSort wfGE df)] at hs
    have := (List.pairwise_append.mp hs).2.2
    intro y hy x hx
    exact this x hx y hy

theorem perm_all_eq {α : Type} {l₁ l₂ : List α} (h : l₁.Perm l₂)
    (f : α → Bool) : l₁.all f = l₂.all f := by
  induction h with
  | nil => rfl
  | cons a _ ih => simp [List.all_cons, ih]
  | swap a b l =>
    simp only [List.all_cons]
    rw [← Bool.and_assoc, Bool.and_comm (f b) (f a), Bool.and_assoc]
  | trans _ _ ih1 ih2 => exact ih1.trans ih2

theorem applyPreds_eq_filter_all (df : List Row) (ps : List (Row → Bool)) :
    applyPreds df ps = df.filter (fun r => ps.all (fun q => q r)) := by
  induction ps generalizing df with
  | nil => simp [applyPreds]
  | cons q qs ih =>
    show applyPreds (df.filter q) qs = _
    rw [ih, List.filter_filter]
    refine List.filter_congr fun r _ => ?_
    simp [List.all_cons, Bool.and_comm]

theorem filter_ok_budget_vals {df : List Row} {p : Prefs}
    {res : List Row × List String}
    (h : filter_by_constraints df p = .ok res)
    (ht : p.monthly_budget.truthy = true) :
    ∃ s b, pvalAsNum (sizeVal p) = .ok s ∧
      pvalAsNum p.monthly_budget = .ok b := by
  unfold filter_by_constraints at h
  obtain ⟨st1, h1, _⟩ := except_bind_ok h
  unfold budgetStep at h1
  rw [if_pos ht] at h1
  cases hs : pvalAsNum (sizeVal p) with
  | error e => rw [hs] at h1; cases h1
  | ok s =>
    rw [hs] at h1
    cases hb : pvalAsNum p.monthly_budget with
    | error e => rw [hb] at h1; cases h1
    | ok b => exact ⟨s, b, rfl, rfl⟩

theorem rowToRec_eq_truthy {p : Prefs} {s b : ℚ} (r : Row)
    (ht : p.monthly_budget.truthy = true)
    (hs : pvalAsNum (sizeVal p) = .ok s)
    (hb : pvalAsNum p.monthly_budget = .ok b) :
    rowToRec p r = .ok
      { mahalle := r.mahalle, ilce := r.ilce, similarity := 1/2,
        monthly_rent := some (r.avg_rent_per_sqm * s),
        budget_remaining := some (b - r.avg_rent_per_sqm * s) } := by
  unfold rowToRec
  rw [if_pos ht]
  simp only [hs]
  simp only [hb]

theorem rowToRec_eq_falsy {p : Prefs} (r : Row)
    (ht : p.monthly_budget.truthy = false) :
    rowToRec p r = .ok
      { mahalle := r.mahalle, ilce := r.ilce, similarity := 1/2,
        monthly_rent := none, budget_remaining := none } := by
  unfold rowToRec
  simp [ht]

theorem dfToRecs_ok_of_filter_ok {df : List Row} {p : Prefs}
    {res : List Row × List String}
    (h : filter_by_constraints df p = .ok res) (rows : List Row) :
    ∃ recs, dfToRecs rows p = .ok recs := by
  unfold dfToRecs
  refine mapE_ok_of_forall fun r _ => ?_
  by_cases ht : p.monthly_budget.truthy
  · obtain ⟨s, b, hs, hb⟩ := filter_ok_budget_vals h ht
    exact ⟨_, rowToRec_eq_truthy r ht hs hb⟩
  · exact ⟨_, rowToRec_eq_falsy r (Bool.eq_false_iff.mpr ht)⟩

theorem rowToRec_similarity {p : Prefs} {r : Row} {rec : Rec}
    (h : rowToRec p r = .ok rec) : rec.similarity = 1/2 := by
  unfold rowToRec at h
  by_cases ht : p.monthly_budget.truthy
  · rw [if_pos ht] at h
    cases hs : pvalAsNum (sizeVal p) with
    | error e =>
      simp only [hs] at h
      exact Except.noConfusion h
    | ok s =>
      simp only [hs] at h
      cases hb : pvalAsNum p.monthly_budget with
      | error e =>
        simp only [hb] at h
        exact Except.noConfusion h
      | ok b =>
        simp only [hb] at h
        injection h with h'
        rw [← h']
  · rw [if_neg ht] at h
    injection h with h'
    rw [← h']

theorem rowToRec_budget_remaining {p : Prefs} {r : Row} {rec : Rec}
    {s b : ℚ} (ht : p.monthly_budget.truthy = true)
    (hs : pvalAsNum (sizeVal p) = .ok s)
    (hb : pvalAsNum p.monthly_budget = .ok b)
    (h : rowToRec p r = .ok rec) :
    rec.budget_remaining = some (b - r.avg_rent_per_sqm * s) := by
  rw [rowToRec_eq_truthy r ht hs hb] at h
  injection h with h'
  rw [← h']

theorem filter_wellTyped_eq {df : List Row} {p : Prefs}
    (h : p.wellTyped = true) :
    filter_by_constraints df p =
      .ok (df.filter (activePred p), traceSpec p) := by
  obtain ⟨⟨rows, trace⟩, hres⟩ := @filter_wt_isOk df p h
  obtain ⟨h1, h2⟩ := filter_ok_spec hres
  rw [h1, h2] at hres
  exact hres

/-- C1 (code bug, evaluation at the failing input): with catalog
[rowA, rowB, rowC] and `min_parks = 1` the candidate set is
[rowA, rowB], yet the post-filter of `search_with_constraints` keeps a
reply item whose identifier (mahalle "Moda", ilce "Besiktas") is rowC, a
non-candidate: the code tests mahalle membership and ilce membership
against the two candidate columns independently instead of testing the
identifier pair, so a Moda from one candidate and a Besiktas from
another together admit the excluded row. -/
theorem C1_post_filter_membership_bug :
    filter_by_constraints [rowA, rowB, rowC] parksPrefs =
      .ok ([rowA, rowB], ["Parks: >= 1"]) ∧
    search_with_constraints [rowA, rowB, rowC] parksPrefs 3
      (.ok [itemC]) = .ok [recCsem] ∧
    (recCsem.mahalle, recCsem.ilce) ∉
      [rowA, rowB].map (fun r => (r.mahalle, r.ilce)) :=
  ⟨rfl, rfl, by decide⟩

/-- C2 counterexample: with the non-empty candidate set [rowA] and a
retriever that succeeds but keeps zero items, the pipeline returns the
empty list, not the Fallback Ranker's output (which would be
[recA]). -/
theorem C2_counterexample :
    filter_by_constraints [rowA] nullPrefs = .ok ([rowA], []) ∧
    search_with_constraints [rowA] nullPrefs 3 (.ok []) = .ok [] ∧
    dfToRecs (nlargestWelfare 3 [rowA]) nullPrefs = .ok [recA] :=
  ⟨rfl, rfl, rfl⟩

/-- C2 (amended): when the candidate set is non-empty, the pipeline
returns the Fallback Ranker's output (top-n by welfare index over the
candidate set, converted to recommendations) only when the Semantic
Retriever raises; the fallback output is then a non-empty `.ok` list.
A retriever that succeeds with zero kept items yields `.ok []`
(see the counterexample). -/
theorem C2_fallback_only_on_error {df : List Row} {p : Prefs} {n : Nat}
    {fdf : List Row} {tr : List String}
    (h : filter_by_constraints df p = .ok (fdf, tr)) (hne : fdf ≠ [])
    (hn : 0 < n) :
    search_with_constraints df p n .err =
      dfToRecs (nlargestWelfare n fdf) p ∧
    ∃ recs, dfToRecs (nlargestWelfare n fdf) p = .ok recs ∧ recs ≠ [] := by
  have hlen : fdf.length ≠ 0 := fun hc => hne (List.length_eq_zero.mp hc)
  constructor
  · unfold search_with_constraints
    rw [h]
    simp [hlen]
  · obtain ⟨recs, hrecs⟩ := dfToRecs_ok_of_filter_ok h (nlargestWelfare n fdf)
    refine ⟨recs, hrecs, ?_⟩
    have hlr : recs.length = (nlargestWelfare n fdf).length :=
      mapE_ok_length hrecs
    have hpos : 0 < (nlargestWelfare n fdf).length := by
      rw [nlargest_length]
      exact lt_min hn (List.length_pos.mpr hne)
    intro hcon
    rw [hcon] at hlr
    simp at hlr
    omega

/-- C2 witness: concrete non-empty candidate set and a raising
retriever; the pipeline output equals the fallback output. -/
theorem C2_witness :
    filter_by_constraints [rowA, rowB] nullPrefs =
      .ok ([rowA, rowB], []) ∧
    search_with_constraints [rowA, rowB] nullPrefs 3 .err =
      dfToRecs (nlargestWelfare 3 [rowA, rowB]) nullPrefs := by
  refine ⟨rfl, ?_⟩
  exact (C2_fallback_only_on_error (by rfl) (by simp) (by decide)).1

/-- C3 counterexample: `min_parks = 0` is non-null and zero-valued, yet
the filter applies no predicate and appends no description (the trace
stays empty), because the guard is Python truthiness, not an
`is not None` test. -/
theorem C3_counterexample :
    ({ nullPrefs with min_parks := .num 0 } : Prefs).min_parks ≠
      PVal.null ∧
    filter_by_constraints [rowA] { nullPrefs with min_parks := .num 0 } =
      .ok ([rowA], []) :=
  ⟨by decide, rfl⟩

/-- C3 (amended): whenever the filter finishes without raising, the
trace equals `traceSpec p`: exactly one human-readable description per
applied predicate, in source order, independent of the catalog (so a
predicate that removed nothing still gets its entry).  A predicate is
applied iff its field is truthy (non-null and non-zero/non-empty) for
the budget, amenity, index, population and station fields, and iff its
field is non-null (zero included) for the three earthquake maxima. -/
theorem C3_trace_per_applied_predicate {df : List Row} {p : Prefs}
    {rows : List Row} {trace : List String}
    (h : filter_by_constraints df p = .ok (rows, trace)) :
    trace = traceSpec p :=
  (filter_ok_spec h).2

/-- C3 witness: the parks predicate removes every record, yet its
description is appended. -/
theorem C3_witness :
    filter_by_constraints [rowA] bigParksPrefs =
      .ok ([], ["Parks: >= 5"]) ∧
    ["Parks: >= 5"] = traceSpec bigParksPrefs :=
  ⟨rfl, @C3_trace_per_applied_predicate [rowA] bigParksPrefs []
    ["Parks: >= 5"] rfl⟩

/-- C4 counterexample: `monthly_budget = 0` is non-null, yet the budget
filter is skipped entirely (truthiness guard), so the candidate set
keeps rowA although `rate * 80 = 24000 > 0` violates the claimed bound.
-/
theorem C4_counterexample :
    ({ nullPrefs with monthly_budget := .num 0 } : Prefs).monthly_budget ≠
      PVal.null ∧
    filter_by_constraints [rowA]
      { nullPrefs with monthly_budget := .num 0 } = .ok ([rowA], []) ∧
    ¬(rowA.avg_rent_per_sqm * 80 ≤ 0) :=
  ⟨by decide, rfl, by norm_num [rowA]⟩

/-- C4 (amended): if `monthly_budget` is truthy (non-null and non-zero)
with numeric value `b`, and the effective apartment size evaluates to
`s` (the preference when truthy, else 80), then every record in the
candidate set satisfies `rate * s ≤ b`, and every recommendation the
fallback path builds from the candidate set has
`budget_remaining ≥ 0`.  (On the semantic path the same bound can fail
because of the C1 membership bug: a non-candidate's rent was never
filtered.) -/
theorem C4_budget_invariant {df : List Row} {p : Prefs}
    {rows : List Row} {trace : List String} {s b : ℚ} (n : Nat)
    (ht : p.monthly_budget.truthy = true)
    (hs : pvalAsNum (sizeVal p) = .ok s)
    (hb : pvalAsNum p.monthly_budget = .ok b)
    (h : filter_by_constraints df p = .ok (rows, trace)) :
    (∀ r ∈ rows, r.avg_rent_per_sqm * s ≤ b) ∧
    (∀ recs, dfToRecs (nlargestWelfare n rows) p = .ok recs →
      ∀ rec ∈ recs, ∀ br, rec.budget_remaining = some br → 0 ≤ br) := by
  have hrows := (filter_ok_spec h).1
  have hbound : ∀ r ∈ rows, r.avg_rent_per_sqm * s ≤ b := by
    intro r hr
    rw [hrows] at hr
    have hap := (List.mem_filter.mp hr).2
    have hbp : budgetPred p r = true := by
      simp only [activePred, predList, List.all_cons, Bool.and_eq_true]
        at hap
      exact hap.1
    simp only [budgetPred, ht, Bool.not_true, Bool.false_or,
      decide_eq_true_eq, pvalAsNumD_eq hs, pvalAsNumD_eq hb] at hbp
    exact hbp
  refine ⟨hbound, ?_⟩
  intro recs hrecs rec hrec br hbr
  obtain ⟨r, hrmem, hr⟩ := mapE_ok_mem hrecs rec hrec
  have hbrr := rowToRec_budget_remaining ht hs hb hr
  rw [hbrr] at hbr
  have hbr' : br = b - r.avg_rent_per_sqm * s := (Option.some.inj hbr).symm
  have hle := hbound r (nlargest_mem hrmem)
  rw [hbr']
  linarith

/-- C4 witness: budget 32000 for 100 units keeps rowA (rent 30000) and
drops rowC (rent 60000); the kept record satisfies the bound. -/
theorem C4_witness :
    filter_by_constraints [rowA, rowC] budgetPrefs =
      .ok ([rowA], ["Budget: <= 32000 TRY/month"]) ∧
    rowA.avg_rent_per_sqm * 100 ≤ 32000 := by
  have hset : List.filter (activePred budgetPrefs) [rowA, rowC] = [rowA] := by
    norm_num [activePred, predList, budgetPred, minPred, maxPredT, maxPredN,
      sizeVal, pvalAsNumD, budgetPrefs, nullPrefs, PVal.truthy, PVal.notNull,
      List.filter, rowA, rowC]
    decide
  have hfe := @filter_wellTyped_eq [rowA, rowC] budgetPrefs (by decide)
  rw [hset] at hfe
  have htr : traceSpec budgetPrefs = ["Budget: <= 32000 TRY/month"] := rfl
  rw [htr] at hfe
  refine ⟨hfe, ?_⟩
  exact (C4_budget_invariant 3 (by rfl) (by rfl) (by rfl) hfe).1 rowA (by simp)

/-- C5 counterexample: a string where a number is expected makes the
pandas comparison raise `TypeError`; the filter aborts instead of
treating the field as null. -/
theorem C5_counterexample :
    filter_by_constraints [rowA]
      { nullPrefs with min_parks := .str "five" } = .error "TypeError" :=
  rfl

/-- C5 (amended): the Constraint Filter never raises on a well-typed
preference record (every threshold field null, numeric or boolean); a
malformed threshold of the wrong type, however, raises a type error and
aborts the filter (fails closed, not open) — see the counterexample. -/
theorem C5_no_raise_when_well_typed {df : List Row} {p : Prefs}
    (h : p.wellTyped = true) :
    exceptIsOk (filter_by_constraints df p) = true := by
  obtain ⟨res, hres⟩ := filter_wt_isOk h
  rw [hres]
  rfl

/-- C5 witness: a concrete well-typed record passes without raising. -/
theorem C5_witness :
    parksPrefs.wellTyped = true ∧
    exceptIsOk (filter_by_constraints [rowA, rowC] parksPrefs) = true :=
  ⟨by decide, C5_no_raise_when_well_typed (by decide)⟩

/-- C6: with every preference field null the filter applies no
predicate: the candidate set is the whole catalog and the trace is
empty. -/
theorem C6_all_null_is_identity (df : List Row) :
    filter_by_constraints df nullPrefs = .ok (df, []) := rfl

/-- C7: whenever the filter finishes without raising, the candidate set
equals the catalog filtered by the conjunction of all active predicates
(`activePred`), and sequentially applying any permutation of the
per-field predicate list yields that same set — the predicate order
cannot change the result. -/
theorem C7_conjunction_commutes {df : List Row} {p : Prefs}
    {rows : List Row} {trace : List String}
    (h : filter_by_constraints df p = .ok (rows, trace)) :
    rows = df.filter (activePred p) ∧
    ∀ ps : List (Row → Bool), (predList p).Perm ps →
      applyPreds df ps = df.filter (activePred p) := by
  refine ⟨(filter_ok_spec h).1, ?_⟩
  intro ps hperm
  rw [applyPreds_eq_filter_all]
  refine List.filter_congr fun r _ => ?_
  show ps.all (fun q => q r) = activePred p r
  rw [activePred]
  exact perm_all_eq hperm.symm (fun q => q r)

/-- C7 witness: a concrete run whose candidate set equals the
conjunction filter. -/
theorem C7_witness :
    filter_by_constraints [rowA, rowC] parksPrefs =
      .ok ([rowA], ["Parks: >= 1"]) ∧
    [rowA] = [rowA, rowC].filter (activePred parksPrefs) := by
  refine ⟨rfl, ?_⟩
  exact (C7_conjunction_commutes (by rfl)).1

/-- C8: the Fallback Ranker (`nlargest` by welfare index) returns a list
sorted by welfare descending, of length `min n |candidates|`, consisting
of top-welfare records (every dropped record's welfare is at most every
kept record's), with ties kept in catalog order (for each welfare value
the kept records form a subsequence of the catalog's records with that
value), and it is deterministic (a pure function of its inputs). -/
theorem C8_fallback_ranker {df : List Row} (n : Nat) (_hne : df ≠ []) :
    (nlargestWelfare n df).Pairwise wfGE ∧
    (nlargestWelfare n df).length = min n df.length ∧
    (∃ rest, df.Perm (nlargestWelfare n df ++ rest) ∧
      ∀ y ∈ rest, ∀ x ∈ nlargestWelfare n df,
        y.society_welfare_index ≤ x.society_welfare_index) ∧
    (∀ c : ℚ, ((nlargestWelfare n df).filter
        (fun r => r.society_welfare_index == c)).Sublist
      (df.filter (fun r => r.society_welfare_index == c))) ∧
    nlargestWelfare n df = nlargestWelfare n df :=
  ⟨nlargest_sublist_sorted n df, nlargest_length n df, nlargest_topn n df,
    fun c => nlargest_filter_sublist n df c, rfl⟩

/-- C8 witness: on the two-record candidate set [rowB, rowA] (welfare
0.5 and 0.9), the ranker keeps exactly one record, and it is rowA. -/
theorem C8_witness :
    ([rowB, rowA] : List Row) ≠ [] ∧
    (nlargestWelfare 1 [rowB, rowA]).length = min 1 2 ∧
    nlargestWelfare 1 [rowB, rowA] = [rowA] := by
  refine ⟨by simp, ?_, rfl⟩
  have hc := (C8_fallback_ranker 1
    (by simp : ([rowB, rowA] : List Row) ≠ [])).2.1
  simpa using hc

/-- C9: when the candidate set is empty the pipeline returns `.ok []`
for every possible vector-index reply — the reply (even a raising one)
is never consulted, no fallback runs, and no error escapes. -/
theorem C9_empty_candidates {df : List Row} {p : Prefs}
    {tr : List String} {n : Nat}
    (h : filter_by_constraints df p = .ok ([], tr)) :
    ∀ reply : QueryReply, search_with_constraints df p n reply = .ok [] := by
  intro reply
  unfold search_with_constraints
  rw [h]
  simp

/-- C9 witness: a constraint no record meets empties the candidate set;
the pipeline returns `.ok []` both for a raising reply and for a
non-empty successful reply. -/
theorem C9_witness :
    filter_by_constraints [rowA] bigParksPrefs =
      .ok ([], ["Parks: >= 5"]) ∧
    search_with_constraints [rowA] bigParksPrefs 3 .err = .ok [] ∧
    search_with_constraints [rowA] bigParksPrefs 3 (.ok [itemC]) = .ok [] :=
  ⟨rfl, C9_empty_candidates (by rfl) .err, C9_empty_candidates (by rfl) (.ok [itemC])⟩

/-- C10: every recommendation built by `_dataframe_to_recommendations`
(the fallback path) carries the constant similarity 0.5, whatever the
row's welfare index or other attributes; in particular the score lies in
[0, 1]. -/
theorem C10_fallback_similarity_constant {rows : List Row} {p : Prefs}
    {recs : List Rec} (h : dfToRecs rows p = .ok recs) :
    ∀ rec ∈ recs, rec.similarity = 1/2 ∧
      0 ≤ rec.similarity ∧ rec.similarity ≤ 1 := by
  intro rec hrec
  obtain ⟨r, _, hr⟩ := mapE_ok_mem h rec hrec
  have hsim := rowToRec_similarity hr
  exact ⟨hsim, by rw [hsim]; norm_num, by rw [hsim]; norm_num⟩

/-- C10 witness: the fallback recommendation for rowA (welfare 0.9)
still has similarity 0.5. -/
theorem C10_witness :
    dfToRecs [rowA] nullPrefs = .ok [recA] ∧ recA.similarity = 1/2 :=
  ⟨rfl, (@C10_fallback_similarity_constant [rowA] nullPrefs [recA] rfl
    recA (by simp)).1⟩
